import Mathlib

/-!
Shallow embedding of the Sinhala-Stories-Dataset-Creator repository
(src/app.py, src/app2.py, src/merge_pending_into_main.py).

Strings crossing the wire (file paths, commit messages) are modelled as
`List Char` so that prefix/suffix and regex-style scanning are ordinary
list recursion; human-facing reason strings stay `String`.  Python
exceptions are modelled as explicit error values; a `try/except` block
becomes a `match` on those values.  Remote-call outcomes (network,
authorization, capability availability) are parameters of the embedded
functions, one constructor per distinct behaviour of the Python code.
-/

namespace SinhalaStories

/-! ## Shared character/string helpers -/

/-- Whitespace set of Python str.strip() with no arguments: ASCII
whitespace plus the Unicode space characters. -/
def isPySpace (c : Char) : Bool :=
  c = ' ' || c = '\t' || c = '\n' || c = '\r' || c = '\x0b' || c = '\x0c' ||
  c.toNat = 0x1c || c.toNat = 0x1d || c.toNat = 0x1e || c.toNat = 0x1f ||
  c.toNat = 0x85 || c.toNat = 0xa0 || c.toNat = 0x1680 ||
  (0x2000 ≤ c.toNat && c.toNat ≤ 0x200a) ||
  c.toNat = 0x2028 || c.toNat = 0x2029 || c.toNat = 0x202f ||
  c.toNat = 0x205f || c.toNat = 0x3000

/-- Python `story.strip()`: drop leading and trailing whitespace. -/
def pyStrip (s : List Char) : List Char :=
  ((s.dropWhile isPySpace).reverse.dropWhile isPySpace).reverse

/-- Python `f.startswith(pre)` on `List Char`. -/
def startsWithL (pre s : List Char) : Bool :=
  s.take pre.length == pre

/-- Python `f.endswith(suf)` on `List Char`. -/
def endsWithL (suf s : List Char) : Bool :=
  s.drop (s.length - suf.length) == suf

/-! ## app.py: validate_story (lines 19-30) and the Submit handler -/

/-- The character test `0x0D80 <= ord(c) <= 0x0DFF` from app.py line 28. -/
def isSinhalaChar (c : Char) : Bool :=
  0x0D80 ≤ c.toNat && c.toNat ≤ 0x0DFF

/-- app.py lines 19-30 (identical in app2.py lines 17-28): `validate_story`.
`MIN_STORY_LENGTH = 50`, `MAX_STORY_LENGTH = 50000`.  The if/elif chain
appends at most one length error, then the Sinhala check appends its
warning independently. -/
def validate_story (story : List Char) : List String :=
  let s := pyStrip story
  let lengthErrors : List String :=
    if s.isEmpty then ["❌ Story cannot be empty"]
    else if s.length < 50 then ["❌ Must be at least 50 characters"]
    else if s.length > 50000 then ["❌ Exceeds maximum 50000 characters"]
    else []
  let sinhalaErrors : List String :=
    if s.any isSinhalaChar then [] else ["⚠️ No Sinhala characters detected"]
  lengthErrors ++ sinhalaErrors

/-- app.py lines 316-321: the Submit handler calls `upload_jsonl_to_pending`
only when `validate_story` returned no errors; otherwise it shows the
errors and does not upload.  `true` means the submission is blocked. -/
def submit_blocked (story : List Char) : Bool :=
  !(validate_story story).isEmpty

/-! ## Pending-file naming and listing

app.py lines 186-205 (`upload_jsonl_to_pending`) builds the staging path
`f"{PENDING_DIR}/entry_{timestamp}.jsonl"` with `PENDING_DIR = "pending"`.
merge_pending_into_main.py lines 21-22 (`list_pending_files`) filters the
full repository listing by `f.startswith(PENDING_DIR + "/") and
f.endswith(".jsonl")`. -/

/-- app.py line 198: the staging filename written for a submission with
the given formatted timestamp. -/
def upload_filename (timestamp : List Char) : List Char :=
  "pending/entry_".toList ++ timestamp ++ ".jsonl".toList

/-- merge_pending_into_main.py lines 21-22: `list_pending_files`. -/
def list_pending_files (files : List (List Char)) : List (List Char) :=
  files.filter (fun f => startsWithL "pending/".toList f && endsWithL ".jsonl".toList f)

/-! ## Merge commit-message codec

merge_pending_into_main.py lines 62-63 format the message; app.py lines
125-134 parse a timestamp back out of it with
`re.search(r'\((\d{8}T\d{6}Z)\)', commit_msg)` followed by
`datetime.strptime(ts_str, "%Y%m%dT%H%M%SZ")`. -/

/-- merge_pending_into_main.py line 63:
`f"Merge pending submissions ({ts}) — merged {len(pending_ds)} entries"`. -/
def format_merge_message (ts : List Char) (n : Nat) : List Char :=
  "Merge pending submissions (".toList ++ ts ++ ") — merged ".toList ++
  (toString n).toList ++ " entries".toList

/-- Take exactly `n` decimal digits off the front of the list (the regex
piece `\d{n}`), returning them and the rest. -/
def takeDigits : Nat → List Char → Option (List Char × List Char)
  | 0, s => some ([], s)
  | _ + 1, [] => none
  | n + 1, c :: s =>
    if c.isDigit then
      match takeDigits n s with
      | some (d, r) => some (c :: d, r)
      | none => none
    else none

/-- Match the regex `\((\d{8}T\d{6}Z)\)` anchored at the head of the
list, returning capture group 1 (the 16-character `\d{8}T\d{6}Z`). -/
def matchTsAt (s : List Char) : Option (List Char) :=
  match s with
  | '(' :: rest =>
    match takeDigits 8 rest with
    | some (d1, 'T' :: r2) =>
      match takeDigits 6 r2 with
      | some (d2, 'Z' :: ')' :: _) => some (d1 ++ 'T' :: (d2 ++ ['Z']))
      | _ => none
    | _ => none
  | _ => none

/-- `re.search`: leftmost match of `\((\d{8}T\d{6}Z)\)` in the message. -/
def searchTs : List Char → Option (List Char)
  | [] => none
  | c :: rest =>
    match matchTsAt (c :: rest) with
    | some g => some g
    | none => searchTs rest

/-- The naive-datetime fields produced by
`datetime.strptime(ts_str, "%Y%m%dT%H%M%SZ")`. -/
structure DateTimeFields where
  year : Nat
  month : Nat
  day : Nat
  hour : Nat
  minute : Nat
  second : Nat
deriving DecidableEq

/-- Decimal digits to a number (the digits are already validated). -/
def digitsToNat (l : List Char) : Nat :=
  l.foldl (fun a c => a * 10 + (c.toNat - 48)) 0

def isLeapYear (y : Nat) : Bool :=
  (y % 4 == 0 && y % 100 != 0) || y % 400 == 0

def daysInMonth (y m : Nat) : Nat :=
  if m = 2 then (if isLeapYear y then 29 else 28)
  else if m = 4 ∨ m = 6 ∨ m = 9 ∨ m = 11 then 30
  else 31

/-- `datetime.strptime(g, "%Y%m%dT%H%M%SZ")` on a 16-character capture
group: split into fields and apply datetime's range validation (year ≥ 1,
month 1-12, day within the month, hour ≤ 23, minute ≤ 59, second ≤ 59);
out-of-range values raise ValueError, modelled as `none`. -/
def strptime_basic (g : List Char) : Option DateTimeFields :=
  match g with
  | [y1, y2, y3, y4, mo1, mo2, d1, d2, 'T', h1, h2, mi1, mi2, s1, s2, 'Z'] =>
    let y := digitsToNat [y1, y2, y3, y4]
    let mo := digitsToNat [mo1, mo2]
    let d := digitsToNat [d1, d2]
    let h := digitsToNat [h1, h2]
    let mi := digitsToNat [mi1, mi2]
    let s := digitsToNat [s1, s2]
    if 1 ≤ y ∧ 1 ≤ mo ∧ mo ≤ 12 ∧ 1 ≤ d ∧ d ≤ daysInMonth y mo ∧
       h ≤ 23 ∧ mi ≤ 59 ∧ s ≤ 59 then
      some ⟨y, mo, d, h, mi, s⟩
    else none
  | _ => none

/-- app.py lines 127-134: the fallback that recovers a timestamp from a
merge commit message (regex search, then strptime).  This is the only
parsing the repository ever performs on a merge message: no code reads
the `merged <N> entries` count back. -/
def parse_merge_timestamp (msg : List Char) : Option DateTimeFields :=
  match searchTs msg with
  | some g => strptime_basic g
  | none => none

/-! ## Epoch arithmetic for datetime subtraction -/

/-- Days from 0001-01-01 to January 1 of year `y` (proleptic Gregorian),
i.e. `date(y,1,1).toordinal() - 1`. -/
def daysBeforeYear (y : Nat) : Nat :=
  365 * (y - 1) + (y - 1) / 4 - (y - 1) / 100 + (y - 1) / 400

/-- Days from January 1 to the first day of month `m` in year `y`. -/
def daysBeforeMonth (y m : Nat) : Nat :=
  (List.range (m - 1)).foldl (fun a i => a + daysInMonth y (i + 1)) 0

/-- Seconds since the Unix epoch of a UTC datetime (719162 days precede
1970-01-01 in the proleptic Gregorian calendar). -/
def toEpochSecs (f : DateTimeFields) : Int :=
  ((daysBeforeYear f.year + daysBeforeMonth f.year f.month + (f.day - 1) : Int)
    - 719162) * 86400 + f.hour * 3600 + f.minute * 60 + f.second

/-! ## app.py status resolver -/

/-- A Python `datetime` value: seconds since epoch (as read in UTC) plus
whether `tzinfo` is set (timezone-aware) or `None` (naive). -/
structure PyDatetime where
  secs : Int
  aware : Bool
deriving DecidableEq

/-- The value found in a commit's date attribute (`created_at`, `date`,
`timestamp`, `authored_date` or `committed_date`) or dict key, app.py
lines 92-103.  Dynamic typing is flattened into one constructor per
branch of the type dispatch on lines 106-123. -/
inductive DateField where
  /-- The attribute holds a `datetime` instance (line 107): returned as
  is, aware or naive. -/
  | dtVal (d : PyDatetime)
  /-- A string containing `T` that `fromisoformat` accepts after the
  `Z`→`+00:00` rewrite (lines 109-113): an aware datetime. -/
  | isoVal (secs : Int)
  /-- A string that lacks `T` or fails `fromisoformat` (lines 114-117):
  falls through to the message fallback. -/
  | isoBad
  /-- An int or float Unix timestamp accepted by `fromtimestamp` with
  `tz=timezone.utc` (lines 118-121): an aware datetime. -/
  | unixVal (secs : Int)
  /-- A numeric value `fromtimestamp` rejects, or a value of another
  type, or a falsy value (lines 122-123): message fallback. -/
  | badVal
deriving DecidableEq

/-- app.py lines 106-123: turn a found date attribute into a datetime,
`none` meaning control falls through to the message-parsing fallback. -/
def processDateField : DateField → Option PyDatetime
  | .dtVal d => some d
  | .isoVal s => some ⟨s, true⟩
  | .isoBad => none
  | .unixVal s => some ⟨s, true⟩
  | .badVal => none

/-- One entry of the repository's commit history as the resolver sees
it: the resolved commit message (lines 77-86) and the date attribute, if
any of the probed names exists (lines 92-103). -/
structure Commit where
  message : List Char
  dateAttr : Option DateField
deriving DecidableEq

/-- Does `needle` occur as a contiguous substring of `hay` (Python
`needle in hay`)? -/
def containsSub (needle : List Char) : List Char → Bool
  | [] => needle.isEmpty
  | c :: t => startsWithL needle (c :: t) || containsSub needle t

/-- app.py line 88: `"Merge pending submissions" in commit_msg`. -/
def hasMergeMarker (msg : List Char) : Bool :=
  containsSub "Merge pending submissions".toList msg

/-- app.py lines 76-134, one iteration of the commit loop: the timestamp
this commit yields, or `none` if the loop moves on to the next commit.
A marker-matching commit first tries its date attribute; on failure it
parses the timestamp out of the message and makes it UTC-aware with
`dt.replace(tzinfo=timezone.utc)` (line 132). -/
def commitTs (c : Commit) : Option PyDatetime :=
  if hasMergeMarker c.message then
    match c.dateAttr.bind processDateField with
    | some d => some d
    | none =>
      match parse_merge_timestamp c.message with
      | some f => some ⟨toEpochSecs f, true⟩
      | none => none
  else none

/-- Outcome of `api.list_repo_commits` as observed by the `try` block of
`get_last_merge_timestamp` (app.py lines 64-161): either the commit
list, or one of the exception classes its handlers distinguish, or the
method not existing at all (`hasattr` false, line 65 / line 161). -/
inductive HistoryOutcome where
  | ok (commits : List Commit)
  | httpError (status : Nat) (msg : String)
  | attrError (msg : String)
  | otherError (msg : String)
  | unavailable
deriving DecidableEq

/-- app.py lines 55-161: `get_last_merge_timestamp`, returning the
`(timestamp, error_message)` pair.  The commit scan returns the first
marker-matching commit with an extractable timestamp; each `except`
branch becomes a constructor case. -/
def get_last_merge_timestamp : HistoryOutcome → Option PyDatetime × Option String
  | .ok commits =>
    match commits.findSome? commitTs with
    | some d => (some d, none)
    | none => (none, some "No merge commits found in repository history")
  | .httpError status m =>
    if status = 401 then
      (none, some "Authentication failed. Check your Hugging Face token.")
    else if status = 403 then
      (none, some "Access forbidden. Token may lack repository permissions.")
    else if status = 404 then
      (none, some "Repository or commit endpoint not found.")
    else
      (none, some ("HTTP error " ++ toString status ++ ": " ++ m))
  | .attrError m => (none, some ("API method error: " ++ m))
  | .otherError m => (none, some ("Error retrieving commits: " ++ m))
  | .unavailable => (none, some "Commit listing method not available")

/-- Outcome of `api.list_repo_files` inside `get_pending_stories_count`
(app.py lines 42-53): the file listing, or any exception (network,
authentication, ...), which the bare `except` turns into `None`. -/
inductive ListFilesOutcome where
  | ok (files : List (List Char))
  | failure (msg : String)
deriving DecidableEq

/-- app.py lines 36-53: `get_pending_stories_count` counts the listed
files that satisfy `f.startswith(PENDING_DIR + "/") and
f.endswith(".jsonl")`; any exception yields `None`. -/
def get_pending_stories_count : ListFilesOutcome → Option Nat
  | .ok files =>
    some (files.filter
      (fun f => startsWithL "pending/".toList f && endsWithL ".jsonl".toList f)).length
  | .failure _ => none

/-- app.py lines 163-184: `get_merge_status`.  `now` is
`datetime.now(timezone.utc)` in epoch seconds.  Line 178 reads
`time_diff = (now - last_merge.replace(tzinfo=timezone.utc) if
last_merge.tzinfo is None else last_merge).total_seconds()`: the
conditional expression binds looser than `-`, so a NAIVE `last_merge`
yields `(now - last_merge.replace(tzinfo=utc)).total_seconds()`, but an
AWARE `last_merge` evaluates `last_merge.total_seconds()`, which raises
`AttributeError` (datetime has no `total_seconds`), caught by the
enclosing `except Exception` of line 183. -/
def get_merge_status (now : Int) (lf : ListFilesOutcome) (ho : HistoryOutcome) :
    String × String :=
  match get_pending_stories_count lf with
  | none => ("Unknown", "Unable to determine status")
  | some pending_count =>
    if pending_count = 0 then
      ("Idle", "No files waiting to merge. All submitted stories are in the dataset.")
    else
      match (get_last_merge_timestamp ho).1 with
      | some last_merge =>
        if last_merge.aware then
          ("Error",
           "Error determining status: 'datetime.datetime' object has no attribute 'total_seconds'")
        else
          if now - last_merge.secs < 3600 then
            ("Processing",
             "Merge completed recently. " ++ toString pending_count ++ " new stories pending.")
          else
            ("Pending", toString pending_count ++ " files waiting to be merged into dataset.")
      | none =>
        ("Pending", toString pending_count ++ " files waiting to be merged into dataset.")

/-! ## merge_pending_into_main.py: the merge run

The remote repository is a state holding the main dataset (the `train`
split `load_dataset` reads and `push_to_hub` rewrites), the staging files
under `pending/`, and the other repository files (shards, README, ...)
that `list_repo_files` also returns.  Commits performed against the
remote are collected in an event trace so ordering can be stated. -/

/-- One staging file: its repository path and the records its JSONL
lines decode to (`Dataset.from_json`). -/
structure StagingFile where
  path : List Char
  records : List String
deriving DecidableEq

/-- The remote dataset repository as the merge script sees it. -/
structure RepoState where
  mainDataset : List String
  staging : List StagingFile
  otherFiles : List (List Char)
deriving DecidableEq

/-- A commit the merge run performs against the remote: the
`push_to_hub` publish of the merged dataset, or the cleanup
`create_commit` deleting staging paths. -/
inductive MergeEvent where
  | pushCommit (newMain : List String) (message : List Char)
  | cleanupCommit (paths : List (List Char)) (message : List Char)
deriving DecidableEq

/-- Result of one merge run: the remote state after it, the commits it
performed in order, and the uncaught Python exception, if one was
raised (the script installs no handler, so it propagates). -/
structure RunResult where
  finalState : RepoState
  trace : List MergeEvent
  error : Option String
deriving DecidableEq

/-- merge_pending_into_main.py lines 18-19: `list_repo_files` returns
every file path in the repository. -/
def list_repo_files (st : RepoState) : List (List Char) :=
  st.otherFiles ++ st.staging.map (fun f => f.path)

/-- Records of the staging file at `p` (the download of lines 24-31 plus
`Dataset.from_json` of line 37). -/
def lookupRecords (staging : List StagingFile) (p : List Char) : List String :=
  match staging.find? (fun f => f.path == p) with
  | some f => f.records
  | none => []

/-- merge_pending_into_main.py lines 45-84: `merge_and_push`.
`pushSucceeds` is the outcome of the `push_to_hub` network call; `ts` is
`datetime.utcnow().strftime("%Y%m%dT%H%M%SZ")` (line 62).  The cleanup
block (lines 68-84) iterates `for file_path in pending:` — but no name
`pending` is bound in the function (its parameter is `pending_files`,
and `main`'s `pending` is a local of `main`), so the loop raises
`NameError` before any cleanup operation is built, and the cleanup
commit is never created. -/
def merge_and_push (pushSucceeds : Bool) (ts : List Char) (st : RepoState)
    (pending_ds : List String) (pending_files : List (List Char)) : RunResult :=
  let main_ds := st.mainDataset
  if pending_ds.length = 0 then
    { finalState := st, trace := [], error := none }
  else
    let merged := main_ds ++ pending_ds
    let commit_msg := format_merge_message ts pending_ds.length
    if pushSucceeds then
      { finalState := { st with mainDataset := merged },
        trace := [.pushCommit merged commit_msg],
        error := some "NameError: name 'pending' is not defined" }
    else
      { finalState := st, trace := [],
        error := some "push_to_hub failed" }

/-- merge_pending_into_main.py lines 86-107: `main`.  Lists the
repository once, filters the pending files, downloads and decodes them
in listing order, concatenates them into the pending batch, and calls
`merge_and_push` with that batch and the listed paths. -/
def mergeRun (pushSucceeds : Bool) (ts : List Char) (st : RepoState) : RunResult :=
  let files := list_repo_files st
  let pending := list_pending_files files
  if pending.isEmpty then
    { finalState := st, trace := [], error := none }
  else
    let pending_ds := (pending.map (lookupRecords st.staging)).flatten
    merge_and_push pushSucceeds ts st pending_ds pending

/-- Is this merge-run commit the cleanup commit? -/
def isCleanupEvent : MergeEvent → Bool
  | .cleanupCommit _ _ => true
  | .pushCommit _ _ => false

/-- Every cleanup commit in the trace comes strictly after some push
commit (the publish of the merged dataset). -/
def cleanupOnlyAfterPushAux (seenPush : Bool) : List MergeEvent → Bool
  | [] => true
  | .pushCommit _ _ :: rest => cleanupOnlyAfterPushAux true rest
  | .cleanupCommit _ _ :: rest => seenPush && cleanupOnlyAfterPushAux seenPush rest

def cleanupOnlyAfterPush (tr : List MergeEvent) : Bool :=
  cleanupOnlyAfterPushAux false tr

/-! # Theorems -/

/-- Appending nothing in front leaves a prefix test true. -/
theorem startsWithL_append (pre rest : List Char) :
    startsWithL pre (pre ++ rest) = true := by
  simp [startsWithL, List.take_left]

theorem endsWithL_append (rest suf : List Char) :
    endsWithL suf (rest ++ suf) = true := by
  unfold endsWithL
  rw [List.length_append, Nat.add_sub_cancel, List.drop_left]
  exact beq_self_eq_true _

/-- The writer's staging path split at the `pending/` namespace. -/
theorem upload_filename_split_head (ts : List Char) :
    upload_filename ts =
      "pending/".toList ++ ("entry_".toList ++ (ts ++ ".jsonl".toList)) := by
  have h : ("pending/entry_".toList : List Char) =
      "pending/".toList ++ "entry_".toList := by decide
  simp [upload_filename, h, List.append_assoc]

/-- The writer's staging path split at the `.jsonl` extension. -/
theorem upload_filename_split_tail (ts : List Char) :
    upload_filename ts = ("pending/entry_".toList ++ ts) ++ ".jsonl".toList := by
  simp [upload_filename, List.append_assoc]

/-- The submission writer's filename passes both halves of the merge
script's pending filter. -/
theorem upload_filename_passes (ts : List Char) :
    startsWithL "pending/".toList (upload_filename ts) = true ∧
    endsWithL ".jsonl".toList (upload_filename ts) = true := by
  constructor
  · rw [upload_filename_split_head]; exact startsWithL_append _ _
  · rw [upload_filename_split_tail]; exact endsWithL_append _ _

/-- Characterization of `validate_story` returning no errors, in the
code's own terms. -/
theorem validate_story_eq_nil (story : List Char) :
    validate_story story = [] ↔
      ((pyStrip story).isEmpty = false ∧ ¬(pyStrip story).length < 50 ∧
       ¬(pyStrip story).length > 50000 ∧ (pyStrip story).any isSinhalaChar = true) := by
  unfold validate_story
  cases h0 : (pyStrip story).isEmpty <;> cases h3 : (pyStrip story).any isSinhalaChar <;>
    by_cases h1 : (pyStrip story).length < 50 <;>
      by_cases h2 : (pyStrip story).length > 50000 <;>
        simp [h0, h1, h2, h3]

/-- C9: for every input string, `validate_story` returns an empty error
list iff the stripped string is non-empty, its length is between 50 and
50000 characters, and it contains at least one character in the Sinhala
Unicode range U+0D80-U+0DFF; and the Submit handler blocks the
submission exactly when the error list is non-empty (so the
no-Sinhala-characters warning alone already blocks). -/
theorem C9_validate_story_gate (story : List Char) :
    (validate_story story = [] ↔
      (pyStrip story ≠ [] ∧ 50 ≤ (pyStrip story).length ∧
       (pyStrip story).length ≤ 50000 ∧
       ∃ c ∈ pyStrip story, 0x0D80 ≤ c.toNat ∧ c.toNat ≤ 0x0DFF)) ∧
    (submit_blocked story = true ↔ validate_story story ≠ []) := by
  constructor
  · rw [validate_story_eq_nil]
    constructor
    · rintro ⟨he, h1, h2, h3⟩
      refine ⟨List.isEmpty_eq_false.mp he, by omega, by omega, ?_⟩
      obtain ⟨c, hc, hrc⟩ := List.any_eq_true.mp h3
      refine ⟨c, hc, ?_⟩
      simpa [isSinhalaChar, Bool.and_eq_true, decide_eq_true_eq] using hrc
    · rintro ⟨he, h1, h2, c, hc, hrc⟩
      refine ⟨List.isEmpty_eq_false.mpr he, by omega, by omega, ?_⟩
      refine List.any_eq_true.mpr ⟨c, hc, ?_⟩
      simpa [isSinhalaChar, Bool.and_eq_true, decide_eq_true_eq] using hrc
  · simp [submit_blocked, List.isEmpty_iff]

/-- C9 witness: a concrete 50-character Sinhala story passes validation
and is not blocked, and a concrete non-Sinhala story of valid length is
blocked by the warning alone. -/
theorem C9_validate_story_gate_witness :
    validate_story (List.replicate 50 'ක') = [] ∧
    submit_blocked (List.replicate 50 'ක') = false ∧
    submit_blocked (List.replicate 50 'a') = true := by
  refine ⟨?_, by decide, by decide⟩
  exact (C9_validate_story_gate (List.replicate 50 'ක')).1.mpr (by decide)

/-- C10: the pending-file filter selects exactly the listed paths that
start with `pending/` and end with `.jsonl`, and every filename the
submission writer produces satisfies both, so a written submission that
appears in the repository listing is always selected by the next merge
run's `list_pending_files`. -/
theorem C10_upload_matches_filter (ts : List Char) (files : List (List Char)) :
    (∀ f, f ∈ list_pending_files files ↔
      (f ∈ files ∧ startsWithL "pending/".toList f = true ∧
       endsWithL ".jsonl".toList f = true)) ∧
    (upload_filename ts ∈ files → upload_filename ts ∈ list_pending_files files) := by
  constructor
  · intro f
    simp [list_pending_files, List.mem_filter, Bool.and_eq_true, and_assoc]
  · intro hmem
    refine List.mem_filter.mpr ⟨hmem, ?_⟩
    rw [Bool.and_eq_true]
    exact ⟨(upload_filename_passes ts).1, (upload_filename_passes ts).2⟩

/-- C10 witness: the filename written for timestamp `20240101T120000Z`
is picked up by the listing filter of a repository that contains it. -/
theorem C10_upload_matches_filter_witness :
    upload_filename "20240101T120000Z".toList ∈
      list_pending_files
        ["README.md".toList, upload_filename "20240101T120000Z".toList] :=
  (C10_upload_matches_filter "20240101T120000Z".toList
    ["README.md".toList, upload_filename "20240101T120000Z".toList]).2 (by decide)

/-- C2 counterexample: the messages formatted with counts 7 and 9 parse
to exactly the same result, both through the message fallback and
through the whole of `get_last_merge_timestamp`; parsing therefore
cannot recover the count — had the claimed round trip held, the two
outputs would differ. -/
theorem C2_count_not_recovered :
    parse_merge_timestamp (format_merge_message "20240101T120000Z".toList 7) =
      parse_merge_timestamp (format_merge_message "20240101T120000Z".toList 9) ∧
    get_last_merge_timestamp
        (HistoryOutcome.ok [⟨format_merge_message "20240101T120000Z".toList 7, none⟩]) =
      get_last_merge_timestamp
        (HistoryOutcome.ok [⟨format_merge_message "20240101T120000Z".toList 9, none⟩]) ∧
    (7 : Nat) ≠ 9 := by decide

/-- C2 (amended): formatting a merge commit message with timestamp
`20240101T120000Z` and count 7 and parsing it back recovers the
timestamp exactly — fields (2024,1,1,12,0,0), made UTC-aware by the full
`get_last_merge_timestamp` pipeline — but only the timestamp: the code
contains no parser for the `merged <N> entries` count. -/
theorem C2_roundtrip_timestamp :
    parse_merge_timestamp (format_merge_message "20240101T120000Z".toList 7) =
      some ⟨2024, 1, 1, 12, 0, 0⟩ ∧
    get_last_merge_timestamp
        (HistoryOutcome.ok [⟨format_merge_message "20240101T120000Z".toList 7, none⟩]) =
      (some ⟨toEpochSecs ⟨2024, 1, 1, 12, 0, 0⟩, true⟩, none) := by decide

/-- C3: the claim says pending count > 0 with a merge commit at most an
hour old yields state Processing.  The code disagrees: at this concrete
query the pending count is 1, the most recent merge commit's parsed
timestamp (epoch 1704110400, i.e. 20240101T120000Z) is 600 seconds
before `now`, yet `get_merge_status` returns state Error, because the
timestamp recovered from the message is timezone-aware and line 178's
misparenthesized conditional calls `.total_seconds()` on it, raising
AttributeError. -/
theorem C3_recent_merge_gives_error :
    commitTs ⟨format_merge_message "20240101T120000Z".toList 2, none⟩ =
      some ⟨1704110400, true⟩ ∧
    get_pending_stories_count
        (ListFilesOutcome.ok ["pending/entry_20240101T120500Z.jsonl".toList]) = some 1 ∧
    (1704111000 : Int) - 1704110400 < 3600 ∧
    get_merge_status 1704111000
        (ListFilesOutcome.ok ["pending/entry_20240101T120500Z.jsonl".toList])
        (HistoryOutcome.ok [⟨format_merge_message "20240101T120000Z".toList 2, none⟩]) =
      ("Error",
       "Error determining status: 'datetime.datetime' object has no attribute 'total_seconds'") := by
  decide

/-- C4: whenever the pending count resolves to 0, `get_merge_status`
returns Idle — for every history outcome, available, unreadable or
unsupported, since the function returns before touching history. -/
theorem C4_zero_pending_idle (now : Int) (lf : ListFilesOutcome) (ho : HistoryOutcome)
    (h : get_pending_stories_count lf = some 0) :
    get_merge_status now lf ho =
      ("Idle", "No files waiting to merge. All submitted stories are in the dataset.") := by
  unfold get_merge_status
  rw [h]
  rfl

/-- C4 witness: an empty repository listing gives pending count 0 and
state Idle even when commit listing is unavailable. -/
theorem C4_zero_pending_idle_witness :
    get_pending_stories_count (ListFilesOutcome.ok []) = some 0 ∧
    get_merge_status 12345 (ListFilesOutcome.ok []) HistoryOutcome.unavailable =
      ("Idle", "No files waiting to merge. All submitted stories are in the dataset.") :=
  ⟨by decide, C4_zero_pending_idle 12345 (ListFilesOutcome.ok []) HistoryOutcome.unavailable
    (by decide)⟩

/-- If no commit yields a timestamp, the scan comes back empty. -/
theorem findSome?_commitTs_none {commits : List Commit}
    (h : ∀ c ∈ commits, commitTs c = none) :
    commits.findSome? commitTs = none := by
  induction commits with
  | nil => rfl
  | cons c cs ih =>
    rw [List.findSome?_cons, h c (List.mem_cons_self c cs)]
    exact ih fun x hx => h x (List.mem_cons_of_mem c hx)

/-- C5: with a positive pending count and a commit history none of whose
entries is a merge-marker commit with an extractable timestamp, the
resolver reports Pending. -/
theorem C5_no_parsable_merge_pending (now : Int) (lf : ListFilesOutcome)
    (commits : List Commit) (pc : Nat)
    (hpc : get_pending_stories_count lf = some pc) (hpos : 0 < pc)
    (hparse : ∀ c ∈ commits, commitTs c = none) :
    get_merge_status now lf (HistoryOutcome.ok commits) =
      ("Pending", toString pc ++ " files waiting to be merged into dataset.") := by
  have hgl : get_last_merge_timestamp (HistoryOutcome.ok commits) =
      (none, some "No merge commits found in repository history") := by
    simp [get_last_merge_timestamp, findSome?_commitTs_none hparse]
  have h0 : ¬pc = 0 := by omega
  unfold get_merge_status
  rw [hpc, hgl]
  simp [h0]

/-- C5 witness: one pending file and a history holding only the initial
commit resolve to Pending. -/
theorem C5_no_parsable_merge_pending_witness :
    get_merge_status 0
        (ListFilesOutcome.ok ["pending/entry_20240101T100000Z.jsonl".toList])
        (HistoryOutcome.ok [⟨"Initial commit".toList, none⟩]) =
      ("Pending", toString (1 : Nat) ++ " files waiting to be merged into dataset.") :=
  C5_no_parsable_merge_pending 0
    (ListFilesOutcome.ok ["pending/entry_20240101T100000Z.jsonl".toList])
    [⟨"Initial commit".toList, none⟩] 1 (by decide) (by decide) (by decide)

/-- C6: whatever the outcome of the two remote calls — listing success
or failure, history success, HTTP error of any status, attribute error,
other exception, or the capability missing — the resolver returns a
state from {Idle, Pending, Processing, Unknown, Error} together with a
non-empty reason string.  Totality of the Lean function embeds the fact
that every exception is caught inside `get_merge_status` and its
callees, so none propagates past the boundary. -/
theorem C6_resolver_total (now : Int) (lf : ListFilesOutcome) (ho : HistoryOutcome) :
    ((get_merge_status now lf ho).1 = "Idle" ∨
     (get_merge_status now lf ho).1 = "Pending" ∨
     (get_merge_status now lf ho).1 = "Processing" ∨
     (get_merge_status now lf ho).1 = "Unknown" ∨
     (get_merge_status now lf ho).1 = "Error") ∧
    (get_merge_status now lf ho).2.length ≠ 0 := by
  unfold get_merge_status
  split
  · exact ⟨by simp, by decide⟩
  · split
    · exact ⟨by simp, by decide⟩
    · split
      · split
        · exact ⟨by simp, by decide⟩
        · split
          · refine ⟨by simp, ?_⟩
            dsimp only
            rw [String.length_append, String.length_append]
            have h : ("Merge completed recently. ").length ≠ 0 := by decide
            omega
          · refine ⟨by simp, ?_⟩
            dsimp only
            rw [String.length_append]
            have h : (" files waiting to be merged into dataset.").length ≠ 0 := by decide
            omega
      · refine ⟨by simp, ?_⟩
        dsimp only
        rw [String.length_append]
        have h : (" files waiting to be merged into dataset.").length ≠ 0 := by decide
        omega

/-- C1: the claim says a successful merge run leaves the main dataset at
size M + N and the staging namespace empty.  On this concrete run
(M = 3 records, two staging files holding N = 2 records, push
succeeding) the merged dataset does reach size 3 + 2, but the run then
raises `NameError: name 'pending' is not defined` in the cleanup block
— `merge_and_push` iterates over the unbound name `pending` instead of
its parameter `pending_files` — so both consumed staging entries are
still in the staging namespace when the run dies. -/
theorem C1_staging_not_emptied :
    (mergeRun true "20240101T100100Z".toList
      { mainDataset := ["m1", "m2", "m3"],
        staging := [⟨"pending/entry_20240101T100000Z.jsonl".toList, ["s1"]⟩,
                    ⟨"pending/entry_20240101T100005Z.jsonl".toList, ["s2"]⟩],
        otherFiles := ["data/train-00000.parquet".toList, "README.md".toList] }).finalState.mainDataset.length
      = 3 + 2 ∧
    (mergeRun true "20240101T100100Z".toList
      { mainDataset := ["m1", "m2", "m3"],
        staging := [⟨"pending/entry_20240101T100000Z.jsonl".toList, ["s1"]⟩,
                    ⟨"pending/entry_20240101T100005Z.jsonl".toList, ["s2"]⟩],
        otherFiles := ["data/train-00000.parquet".toList, "README.md".toList] }).finalState.staging
      = [⟨"pending/entry_20240101T100000Z.jsonl".toList, ["s1"]⟩,
         ⟨"pending/entry_20240101T100005Z.jsonl".toList, ["s2"]⟩] ∧
    (mergeRun true "20240101T100100Z".toList
      { mainDataset := ["m1", "m2", "m3"],
        staging := [⟨"pending/entry_20240101T100000Z.jsonl".toList, ["s1"]⟩,
                    ⟨"pending/entry_20240101T100005Z.jsonl".toList, ["s2"]⟩],
        otherFiles := ["data/train-00000.parquet".toList, "README.md".toList] }).error
      = some "NameError: name 'pending' is not defined" := by
  decide

/-- C7: in every merge run — any push outcome, any starting state, any
pending batch and listing — a cleanup commit can only appear in the
commit trace after the publish commit, and every staging entry present
before the run either survives in the staging namespace or has all its
records contained in the final main dataset; no entry is deleted before
its content is durably published. -/
theorem C7_delete_only_after_publish (pushSucceeds : Bool) (ts : List Char)
    (st : RepoState) (pending_ds : List String) (pending_files : List (List Char)) :
    cleanupOnlyAfterPush
      (merge_and_push pushSucceeds ts st pending_ds pending_files).trace = true ∧
    ∀ f ∈ st.staging,
      f ∈ (merge_and_push pushSucceeds ts st pending_ds pending_files).finalState.staging ∨
      ∀ r ∈ f.records,
        r ∈ (merge_and_push pushSucceeds ts st pending_ds pending_files).finalState.mainDataset := by
  unfold merge_and_push
  by_cases hlen : pending_ds.length = 0
  · simp only [hlen, if_true, reduceIte]
    exact ⟨rfl, fun f hf => Or.inl hf⟩
  · simp only [hlen, if_false, reduceIte]
    cases pushSucceeds
    · exact ⟨rfl, fun f hf => Or.inl hf⟩
    · exact ⟨rfl, fun f hf => Or.inl hf⟩

/-- C7 witness: a concrete successful run keeps its one pre-existing
staging entry available (it is never deleted early). -/
theorem C7_delete_only_after_publish_witness :
    cleanupOnlyAfterPush
      (merge_and_push true "20240101T100100Z".toList
        { mainDataset := ["m1"],
          staging := [⟨"pending/entry_20240101T100000Z.jsonl".toList, ["s1"]⟩],
          otherFiles := [] }
        ["s1"] ["pending/entry_20240101T100000Z.jsonl".toList]).trace = true ∧
    ((⟨"pending/entry_20240101T100000Z.jsonl".toList, ["s1"]⟩ : StagingFile) ∈
      (merge_and_push true "20240101T100100Z".toList
        { mainDataset := ["m1"],
          staging := [⟨"pending/entry_20240101T100000Z.jsonl".toList, ["s1"]⟩],
          otherFiles := [] }
        ["s1"] ["pending/entry_20240101T100000Z.jsonl".toList]).finalState.staging ∨
     ∀ r ∈ (⟨"pending/entry_20240101T100000Z.jsonl".toList, ["s1"]⟩ : StagingFile).records,
       r ∈ (merge_and_push true "20240101T100100Z".toList
        { mainDataset := ["m1"],
          staging := [⟨"pending/entry_20240101T100000Z.jsonl".toList, ["s1"]⟩],
          otherFiles := [] }
        ["s1"] ["pending/entry_20240101T100000Z.jsonl".toList]).finalState.mainDataset) :=
  ⟨(C7_delete_only_after_publish true "20240101T100100Z".toList
      { mainDataset := ["m1"],
        staging := [⟨"pending/entry_20240101T100000Z.jsonl".toList, ["s1"]⟩],
        otherFiles := [] }
      ["s1"] ["pending/entry_20240101T100000Z.jsonl".toList]).1,
   (C7_delete_only_after_publish true "20240101T100100Z".toList
      { mainDataset := ["m1"],
        staging := [⟨"pending/entry_20240101T100000Z.jsonl".toList, ["s1"]⟩],
        otherFiles := [] }
      ["s1"] ["pending/entry_20240101T100000Z.jsonl".toList]).2
      ⟨"pending/entry_20240101T100000Z.jsonl".toList, ["s1"]⟩ (by decide)⟩

/-- C8: the claim says the cleanup commit after a successful publish
deletes exactly the entries listed before fetching and leaves entries
written during the run untouched.  On this concrete run the listing
consumed entry A while entry B was written to staging during the run:
the code issues no cleanup commit at all (the cleanup block dies with
`NameError` on the unbound name `pending`), so A — which the claim says
is deleted — is still in the staging namespace alongside B. -/
theorem C8_no_cleanup_commit :
    (merge_and_push true "20240101T100200Z".toList
      { mainDataset := ["m1"],
        staging := [⟨"pending/entry_20240101T100000Z.jsonl".toList, ["s1"]⟩,
                    ⟨"pending/entry_20240101T100130Z.jsonl".toList, ["s2"]⟩],
        otherFiles := [] }
      ["s1"] ["pending/entry_20240101T100000Z.jsonl".toList]).finalState.staging
      = [⟨"pending/entry_20240101T100000Z.jsonl".toList, ["s1"]⟩,
         ⟨"pending/entry_20240101T100130Z.jsonl".toList, ["s2"]⟩] ∧
    (merge_and_push true "20240101T100200Z".toList
      { mainDataset := ["m1"],
        staging := [⟨"pending/entry_20240101T100000Z.jsonl".toList, ["s1"]⟩,
                    ⟨"pending/entry_20240101T100130Z.jsonl".toList, ["s2"]⟩],
        otherFiles := [] }
      ["s1"] ["pending/entry_20240101T100000Z.jsonl".toList]).trace.all
        (fun e => !isCleanupEvent e) = true ∧
    (merge_and_push true "20240101T100200Z".toList
      { mainDataset := ["m1"],
        staging := [⟨"pending/entry_20240101T100000Z.jsonl".toList, ["s1"]⟩,
                    ⟨"pending/entry_20240101T100130Z.jsonl".toList, ["s2"]⟩],
        otherFiles := [] }
      ["s1"] ["pending/entry_20240101T100000Z.jsonl".toList]).error
      = some "NameError: name 'pending' is not defined" := by
  decide

end SinhalaStories
